import Mathlib

/-!
Verification of tensorflow_federated/python/learning/framework/finalizers.py
(the FinalizerProcess constructor-time validator), as a shallow embedding.

The single source file under verification is finalizers.py.  The federated
type system (computation_types), the placement literals, the structure
flattening helper, the template error classes, the model_utils.ModelWeights
container and the measured_process.MeasuredProcess base class are repository
code that is not part of the source tree given here; every definition that
stands in for one of them carries a doc comment starting with
"Modelled from the spec:".
-/

namespace Finalizers

/-- Modelled from the spec: the placement tag of a federated value.  The
glossary lists a single coordinating party (server) and the participants
(clients); the code compares against placements.SERVER. -/
inductive Placement where
  | server
  | clients
deriving DecidableEq, Repr

/-- Tensor element dtypes, enough to distinguish concrete type signatures. -/
inductive Dtype where
  | int32
  | float32
  | bool_
deriving DecidableEq, Repr

/-- Modelled from the spec: Python container classes that a structural type
may be tagged with.  Distinct Python class objects are distinct constructors;
the Python "is" identity test between class objects is constructor equality,
so a strict subclass of tff.learning.ModelWeights is a class object distinct
from modelWeights itself. -/
inductive PyContainer where
  | modelWeights
  | modelWeightsSubclass
  | odict
deriving DecidableEq, Repr

/-- Modelled from the spec: the federated type-signature system
(computation_types).  A type is a tensor leaf, an ordered struct of
optionally named elements, a struct additionally tagged with a Python
container class, or a federated type which carries a member type and a
placement.  Only federated types have a placement; only struct-with-python
types have a python_container. -/
inductive TffType where
  | tensor (dtype : Dtype) (dims : List (Option Nat))
  | struct (elems : List (Option String × TffType))
  | structWithPython (container : PyContainer) (elems : List (Option String × TffType))
  | federated (member : TffType) (placement : Placement)

namespace TffType

/-- Type.is_federated(): true exactly for FederatedType. -/
def is_federated : TffType → Bool
  | .federated _ _ => true
  | _ => false

/-- Type.is_struct(): true for StructType and its subclass
StructWithPythonType. -/
def is_struct : TffType → Bool
  | .struct _ => true
  | .structWithPython _ _ => true
  | _ => false

/-- Type.is_struct_with_python(): true exactly for StructWithPythonType. -/
def is_struct_with_python : TffType → Bool
  | .structWithPython _ _ => true
  | _ => false

/-- The ordered elements of a struct-like type (empty for non-structs;
callers in the source only use it after an is_struct check). -/
def structElems : TffType → List (Option String × TffType)
  | .struct es => es
  | .structWithPython _ es => es
  | _ => []

end TffType

mutual

/-- Modelled from the spec: structural equality of type signatures, the
meaning of the Python equality operator on computation_types values. -/
def TffType.beq : TffType → TffType → Bool
  | .tensor d1 ds1, .tensor d2 ds2 => d1 == d2 && ds1 == ds2
  | .struct es1, .struct es2 => elemsBeq es1 es2
  | .structWithPython c1 es1, .structWithPython c2 es2 => c1 == c2 && elemsBeq es1 es2
  | .federated m1 p1, .federated m2 p2 => TffType.beq m1 m2 && p1 == p2
  | _, _ => false

/-- Pointwise structural equality of struct elements. -/
def elemsBeq :
    List (Option String × TffType) → List (Option String × TffType) → Bool
  | [], [] => true
  | (n1, t1) :: r1, (n2, t2) :: r2 =>
      n1 == n2 && TffType.beq t1 t2 && elemsBeq r1 r2
  | _, _ => false

end


/-- A Python exception escaping the FinalizerProcess constructor.  Each
constructor records one raise site together with the data its message
interpolates; the classifier functions below recover the Python exception
class. -/
inductive PyErr where
  | templateInitFnParamNotEmptyError
  | templateStateNotAssignableError
  | templateNotMeasuredProcessOutputError
  | templateNotFederatedInitError (found : TffType)
  | templateNotFederatedNextError (offending : String)
  | templatePlacementStateError (found : TffType)
  | templateNextFnNumArgsStructError (found : TffType)
  | templateNextFnNumArgsArityError (numArgs : Nat) (params : List TffType)
  | templatePlacementSecondArgError (found : TffType)
  | modelWeightsTypeError (found : TffType)
  | templatePlacementThirdArgError (found : TffType)
  | templatePlacementResultError (found : TffType)
  | finalizerResultTypeError (secondArgMember : TffType) (resultAttrMember : TffType)
  | templatePlacementMeasurementsError (found : TffType)
  | typeErrorStrJoinNonStr
  | attributeError (attr : String)

namespace PyErr

/-- Which PyErr values are instances of errors.TemplateNotFederatedError. -/
def isTemplateNotFederatedError : PyErr → Bool
  | .templateNotFederatedInitError _ => true
  | .templateNotFederatedNextError _ => true
  | _ => false

/-- Which PyErr values are instances of errors.TemplatePlacementError. -/
def isTemplatePlacementError : PyErr → Bool
  | .templatePlacementStateError _ => true
  | .templatePlacementSecondArgError _ => true
  | .templatePlacementThirdArgError _ => true
  | .templatePlacementResultError _ => true
  | .templatePlacementMeasurementsError _ => true
  | _ => false

/-- Which PyErr values are instances of errors.TemplateNextFnNumArgsError. -/
def isTemplateNextFnNumArgsError : PyErr → Bool
  | .templateNextFnNumArgsStructError _ => true
  | .templateNextFnNumArgsArityError _ _ => true
  | _ => false

/-- Which PyErr values are instances of finalizers.ModelWeightsTypeError. -/
def isModelWeightsTypeError : PyErr → Bool
  | .modelWeightsTypeError _ => true
  | _ => false

/-- Which PyErr values are instances of finalizers.FinalizerResultTypeError. -/
def isFinalizerResultTypeError : PyErr → Bool
  | .finalizerResultTypeError _ _ => true
  | _ => false

end PyErr

namespace TffType

/-- Attribute access t.placement: only FederatedType has the attribute, any
other type raises AttributeError. -/
def placementE : TffType → Except PyErr Placement
  | .federated _ p => .ok p
  | _ => .error (.attributeError "placement")

/-- Attribute access t.member: only FederatedType has the attribute. -/
def memberE : TffType → Except PyErr TffType
  | .federated m _ => .ok m
  | _ => .error (.attributeError "member")

/-- Attribute access t.python_container: only StructWithPythonType has the
attribute. -/
def pythonContainerE : TffType → Except PyErr PyContainer
  | .structWithPython c _ => .ok c
  | _ => .error (.attributeError "python_container")

/-- Attribute access on a struct-like type by field name, as used for
next_fn_result.result and next_fn_result.measurements: returns the element
carrying that name, AttributeError when the name is absent or the type is
not a struct. -/
def getattrE (t : TffType) (attr : String) : Except PyErr TffType :=
  match t with
  | .struct es | .structWithPython _ es =>
    match es.find? (fun e => e.1 == some attr) with
    | some e => .ok e.2
    | none => .error (.attributeError attr)
  | _ => .error (.attributeError attr)

end TffType

mutual

/-- Modelled from the spec: structure.flatten on a type signature.  Struct
types (with or without a Python container) are internal nodes whose elements
are flattened recursively; every other type, a federated type included, is a
leaf returned as a singleton. -/
def TffType.flattenT : TffType → List TffType
  | .tensor d ds => [.tensor d ds]
  | .federated m p => [.federated m p]
  | .struct es => flattenElems es
  | .structWithPython _ es => flattenElems es

/-- Flattening of the ordered elements of a struct, left to right. -/
def flattenElems : List (Option String × TffType) → List TffType
  | [] => []
  | e :: rest => TffType.flattenT e.2 ++ flattenElems rest

end

/-- Modelled from the spec: Python dimension compatibility used by
assignability.  A target dimension that is unspecified (none) accepts any
source dimension; a specified target dimension accepts only an equal
specified source dimension. -/
def dimsAccept : List (Option Nat) → List (Option Nat) → Bool
  | [], [] => true
  | none :: xs, _ :: ys => dimsAccept xs ys
  | some a :: xs, some b :: ys => a == b && dimsAccept xs ys
  | _, _ => false

mutual

/-- Modelled from the spec: Type.is_assignable_from, the assignability query
of the external type system.  The spec describes it as structural subtyping
(the open design note weighs exact equality against true structural
subtyping; the testable property about a strict subtype that is not
assignable forces a genuinely asymmetric relation, realised here through
tensor dimensions: an unspecified target dimension accepts any concretely
specified source dimension but not conversely).  Struct assignability is
positional with equal names; the Python container tag is structural and does
not affect assignability; federated assignability needs equal placement and
assignable members. -/
def TffType.is_assignable_from : TffType → TffType → Bool
  | .tensor d1 ds1, .tensor d2 ds2 => d1 == d2 && dimsAccept ds1 ds2
  | .federated m1 p1, .federated m2 p2 => p1 == p2 && TffType.is_assignable_from m1 m2
  | .struct es1, .struct es2 => elemsAssignable es1 es2
  | .struct es1, .structWithPython _ es2 => elemsAssignable es1 es2
  | .structWithPython _ es1, .struct es2 => elemsAssignable es1 es2
  | .structWithPython _ es1, .structWithPython _ es2 => elemsAssignable es1 es2
  | _, _ => false

/-- Positional assignability of struct elements: same length, equal names,
assignable element types. -/
def elemsAssignable :
    List (Option String × TffType) → List (Option String × TffType) → Bool
  | [], [] => true
  | (n1, t1) :: r1, (n2, t2) :: r2 =>
      n1 == n2 && TffType.is_assignable_from t1 t2 && elemsAssignable r1 r2
  | _, _ => false

end

/-- The functional type signature of a tff.Computation: an optional parameter
type (none for a no-argument computation) and a result type. -/
structure FunctionType where
  parameter : Option TffType
  result : TffType

/-- A tff.Computation, reduced to the only data the validator inspects: its
type signature. -/
structure Computation where
  type_signature : FunctionType

/-- A Python value appearing in the list handed to str.join at line 76 of
finalizers.py: either an actual string or a computation_types value. -/
inductive PyObj where
  | str (s : String)
  | type (t : TffType)

/-- Python str.join: concatenates the items with the separator, but raises
TypeError as soon as an item is not a str instance.  The list built at line
76 of finalizers.py holds Type objects, not strings, so a nonempty list
there makes the join raise. -/
def strJoin (sep : String) (items : List PyObj) : Except PyErr String :=
  if items.all (fun i => match i with | .str _ => true | .type _ => false) then
    .ok (String.intercalate sep
      (items.map (fun i => match i with | .str s => s | .type _ => "")))
  else
    .error .typeErrorStrJoinNonStr

/-- The process object produced by a successful construction: the base class
stores the two computations as the initialize and next attributes. -/
structure FinalizerProcess where
  initialize_fn : Computation
  next_fn : Computation

/-- Modelled from the spec: the constructor chain of the base class
measured_process.MeasuredProcess (itself an IterativeProcess), which line 63
of finalizers.py runs before any finalizer-specific check.  Per the spec it
enforces the generic process invariants: the initializer takes no argument;
the step function consumes the state as its first input (its parameter, or
the first element when the parameter is a struct); the state type returned
by the initializer equals the state type consumed and produced by the step
function; and the step function returns the measured-process output shape,
an ordered struct with exactly the named fields state, result and
measurements.  On success it stores the two computations unchanged. -/
def measuredProcessInit (initialize_fn next_fn : Computation) :
    Except PyErr FinalizerProcess :=
  if initialize_fn.type_signature.parameter.isSome then
    .error .templateInitFnParamNotEmptyError
  else
    match next_fn.type_signature.parameter with
    | none => .error .templateStateNotAssignableError
    | some p =>
      let consumedState? : Option TffType :=
        if p.is_struct then (p.structElems.map Prod.snd).head? else some p
      match consumedState? with
      | none => .error .templateStateNotAssignableError
      | some consumedState =>
        if ¬ TffType.beq consumedState initialize_fn.type_signature.result then
          .error .templateStateNotAssignableError
        else
          match next_fn.type_signature.result with
          | .struct es =>
            if es.map Prod.fst = [some "state", some "result", some "measurements"] then
              if (es.map Prod.snd).head?.all
                  (fun st => TffType.beq st initialize_fn.type_signature.result) then
                .ok ⟨initialize_fn, next_fn⟩
              else .error .templateStateNotAssignableError
            else .error .templateNotMeasuredProcessOutputError
          | .structWithPython _ es =>
            if es.map Prod.fst = [some "state", some "result", some "measurements"] then
              if (es.map Prod.snd).head?.all
                  (fun st => TffType.beq st initialize_fn.type_signature.result) then
                .ok ⟨initialize_fn, next_fn⟩
              else .error .templateStateNotAssignableError
            else .error .templateNotMeasuredProcessOutputError
          | _ => .error .templateNotMeasuredProcessOutputError

/-- The result type of the initializer, initialize_fn.type_signature.result. -/
def initResult (initialize_fn : Computation) : TffType :=
  initialize_fn.type_signature.result

/-- Lines 71 to 73 of finalizers.py: structure.flatten of the parameter of
next_fn concatenated with structure.flatten of its result.  A parameter of
None cannot reach this point because the base constructor has already
required next_fn to consume the state; it is mapped to the empty leaf
list. -/
def nextLeafTypes (next_fn : Computation) : List TffType :=
  (match next_fn.type_signature.parameter with
    | none => []
    | some p => p.flattenT) ++ next_fn.type_signature.result.flattenT

/-- The separator string used by the two join calls in finalizers.py. -/
def joinSep : String := "\n- "

/-- The constructor FinalizerProcess.__init__ of finalizers.py, lines 62 to
137, translated check for check.  Comments give the source lines. -/
def FinalizerProcess.init (initialize_fn next_fn : Computation) :
    Except PyErr FinalizerProcess :=
  -- line 63: super().__init__(initialize_fn, next_fn, next_is_multi_arg=True)
  match measuredProcessInit initialize_fn next_fn with
  | .error e => .error e
  | .ok base =>
    -- lines 65-70: initialize_fn result must be federated
    if ¬ (initResult initialize_fn).is_federated then
      .error (.templateNotFederatedInitError (initResult initialize_fn))
    else
      -- lines 71-81: every flattened leaf of the next_fn signature must be
      -- federated; the message is built by joining the offending Type
      -- objects, which are not strings (line 76)
      if ¬ (nextLeafTypes next_fn).all TffType.is_federated then
        match strJoin joinSep
            (((nextLeafTypes next_fn).filter
              (fun t => !t.is_federated)).map PyObj.type) with
        | .error e => .error e
        | .ok s => .error (.templateNotFederatedNextError s)
      else
        -- lines 83-86: initializer result placed at SERVER
        match (initResult initialize_fn).placementE with
        | .error e => .error e
        | .ok initPlacement =>
          if initPlacement ≠ .server then
            .error (.templatePlacementStateError (initResult initialize_fn))
          else
            -- line 91: next_fn_param = next_fn.type_signature.parameter
            match next_fn.type_signature.parameter with
            | none => .error (.attributeError "is_struct")
            | some next_fn_param =>
              -- lines 92-95: parameter must be a Struct
              if ¬ next_fn_param.is_struct then
                .error (.templateNextFnNumArgsStructError next_fn_param)
              else
                -- lines 96-100: exactly three elements
                if next_fn_param.structElems.length ≠ 3 then
                  .error (.templateNextFnNumArgsArityError
                    next_fn_param.structElems.length
                    (next_fn_param.structElems.map Prod.snd))
                else
                  match next_fn_param.structElems with
                  | [_, (_, model_weights_param), (_, update_from_clients_param)] =>
                    -- lines 107-109: second argument placed at SERVER
                    match model_weights_param.placementE with
                    | .error e => .error e
                    | .ok secondPlacement =>
                      if secondPlacement ≠ .server then
                        .error (.templatePlacementSecondArgError model_weights_param)
                      else
                        -- lines 110-113: member must be a struct with the
                        -- ModelWeights python container
                        match model_weights_param.memberE with
                        | .error e => .error e
                        | .ok weightsMember =>
                          if ¬ weightsMember.is_struct_with_python then
                            .error (.modelWeightsTypeError model_weights_param)
                          else
                            match weightsMember.pythonContainerE with
                            | .error e => .error e
                            | .ok container =>
                              if container ≠ .modelWeights then
                                .error (.modelWeightsTypeError model_weights_param)
                              else
                                -- lines 114-117: third argument placed at SERVER
                                match update_from_clients_param.placementE with
                                | .error e => .error e
                                | .ok thirdPlacement =>
                                  if thirdPlacement ≠ .server then
                                    .error (.templatePlacementThirdArgError
                                      update_from_clients_param)
                                  else
                                    -- lines 119-123: the result attribute of the
                                    -- next_fn result, placed at SERVER
                                    match next_fn.type_signature.result.getattrE "result" with
                                    | .error e => .error e
                                    | .ok resultField =>
                                      match resultField.placementE with
                                      | .error e => .error e
                                      | .ok resultPlacement =>
                                        if resultPlacement ≠ .server then
                                          .error (.templatePlacementResultError resultField)
                                        else
                                          match resultField.memberE with
                                          | .error e => .error e
                                          | .ok resultMember =>
                                            -- lines 124-133: the member of the second
                                            -- argument must be assignable from the
                                            -- member of the result attribute
                                            if ¬ weightsMember.is_assignable_from resultMember then
                                              .error (.finalizerResultTypeError
                                                weightsMember resultMember)
                                            else
                                              -- lines 134-137: measurements placed at SERVER
                                              match next_fn.type_signature.result.getattrE
                                                  "measurements" with
                                              | .error e => .error e
                                              | .ok measurementsField =>
                                                match measurementsField.placementE with
                                                | .error e => .error e
                                                | .ok measurementsPlacement =>
                                                  if measurementsPlacement ≠ .server then
                                                    .error (.templatePlacementMeasurementsError
                                                      measurementsField)
                                                  else
                                                    .ok ⟨base.initialize_fn, base.next_fn⟩
                  | _ => .error (.attributeError "getitem")

/-! Concrete type signatures used throughout the development as test
fixtures for the claims. -/

/-- A server-placed federated state type, int32 at SERVER. -/
def stateT : TffType := .federated (.tensor .int32 []) .server

/-- A member type carrying the tff.learning.ModelWeights container: a
trainable float32 vector of length two and a non_trainable scalar. -/
def weightsMemberOk : TffType :=
  .structWithPython .modelWeights
    [(some "trainable", .tensor .float32 [some 2]),
     (some "non_trainable", .tensor .float32 [])]

/-- A server-placed weight-update input type for the third argument. -/
def updateT : TffType := .federated (.tensor .float32 [some 2]) .server

/-- A server-placed measurements type. -/
def measurementsT : TffType := .federated (.tensor .int32 []) .server

/-- An initializer computation with no parameter and the given result. -/
def mkInit (s : TffType) : Computation := ⟨⟨none, s⟩⟩

/-- A next computation with the given parameter and result types. -/
def mkNext (p : Option TffType) (r : TffType) : Computation := ⟨⟨p, r⟩⟩

/-- An unnamed three-element parameter struct. -/
def mkParam3 (a b c : TffType) : TffType := .struct [(none, a), (none, b), (none, c)]

/-- A measured-process output struct with the three named fields. -/
def mkResultT (s r m : TffType) : TffType :=
  .struct [(some "state", s), (some "result", r), (some "measurements", m)]

/-- A fully valid next_fn fixture around the valid weights member. -/
def nextOk : Computation :=
  mkNext (some (mkParam3 stateT (.federated weightsMemberOk .server) updateT))
    (mkResultT stateT (.federated weightsMemberOk .server) measurementsT)

/-- A fully valid initializer fixture. -/
def initOk : Computation := mkInit stateT

/-! The validation sequence of the spec, represented as an ordered list of
nine independent checks, each a function of the two raw type signatures
returning the error that its site in the source raises when the check is
violated, and none when it passes.  This is the spec-side reformulation the
design notes ask for; the ordering claim is that the constructor, after the
base-class constructor succeeds, behaves exactly as this ordered list. -/

/-- Spec check 1: the initializer result must be federated (lines 65-70). -/
def check1Err (initialize_fn _next_fn : Computation) : Option PyErr :=
  if ¬ (initResult initialize_fn).is_federated then
    some (.templateNotFederatedInitError (initResult initialize_fn))
  else none

/-- Spec check 2: every flattened leaf of the next_fn signature must be
federated (lines 71-81); at this site the message construction joins Type
objects, so a violation surfaces as the str.join TypeError. -/
def check2Err (_initialize_fn next_fn : Computation) : Option PyErr :=
  if ¬ (nextLeafTypes next_fn).all TffType.is_federated then
    match strJoin joinSep
        (((nextLeafTypes next_fn).filter
          (fun t => !t.is_federated)).map PyObj.type) with
    | .error e => some e
    | .ok s => some (.templateNotFederatedNextError s)
  else none

/-- Spec check 3: the initializer result must be placed at SERVER
(lines 83-86). -/
def check3Err (initialize_fn _next_fn : Computation) : Option PyErr :=
  match (initResult initialize_fn).placementE with
  | .error e => some e
  | .ok p => if p ≠ .server then
      some (.templatePlacementStateError (initResult initialize_fn))
    else none

/-- Spec check 4: the next_fn parameter must be a three-element struct
(lines 91-100), distinguishing the non-struct case from the wrong-arity
case. -/
def check4Err (_initialize_fn next_fn : Computation) : Option PyErr :=
  match next_fn.type_signature.parameter with
  | none => some (.attributeError "is_struct")
  | some p =>
    if ¬ p.is_struct then some (.templateNextFnNumArgsStructError p)
    else if p.structElems.length ≠ 3 then
      some (.templateNextFnNumArgsArityError p.structElems.length
        (p.structElems.map Prod.snd))
    else none

/-- Spec check 5: the second parameter element must be placed at SERVER and
its member must carry the ModelWeights container (lines 101-113). -/
def check5Err (_initialize_fn next_fn : Computation) : Option PyErr :=
  match next_fn.type_signature.parameter with
  | none => none
  | some p =>
    match p.structElems with
    | [_, (_, model_weights_param), _] =>
      match model_weights_param.placementE with
      | .error e => some e
      | .ok secondPlacement =>
        if secondPlacement ≠ .server then
          some (.templatePlacementSecondArgError model_weights_param)
        else
          match model_weights_param.memberE with
          | .error e => some e
          | .ok weightsMember =>
            if ¬ weightsMember.is_struct_with_python then
              some (.modelWeightsTypeError model_weights_param)
            else
              match weightsMember.pythonContainerE with
              | .error e => some e
              | .ok container =>
                if container ≠ .modelWeights then
                  some (.modelWeightsTypeError model_weights_param)
                else none
    | _ => none

/-- Spec check 6: the third parameter element must be placed at SERVER
(lines 114-117). -/
def check6Err (_initialize_fn next_fn : Computation) : Option PyErr :=
  match next_fn.type_signature.parameter with
  | none => none
  | some p =>
    match p.structElems with
    | [_, _, (_, update_from_clients_param)] =>
      match update_from_clients_param.placementE with
      | .error e => some e
      | .ok thirdPlacement =>
        if thirdPlacement ≠ .server then
          some (.templatePlacementThirdArgError update_from_clients_param)
        else none
    | _ => none

/-- Spec check 7: the result attribute of the next_fn result (a field the
base-class contract guarantees) must be placed at SERVER (lines 119-123). -/
def check7Err (_initialize_fn next_fn : Computation) : Option PyErr :=
  match next_fn.type_signature.result.getattrE "result" with
  | .error e => some e
  | .ok resultField =>
    match resultField.placementE with
    | .error e => some e
    | .ok resultPlacement =>
      if resultPlacement ≠ .server then
        some (.templatePlacementResultError resultField)
      else none

/-- Spec check 8: the member of the second parameter element must be
assignable from the member of the result attribute (lines 124-133). -/
def check8Err (_initialize_fn next_fn : Computation) : Option PyErr :=
  match next_fn.type_signature.parameter with
  | none => none
  | some p =>
    match p.structElems with
    | [_, (_, model_weights_param), _] =>
      match model_weights_param.memberE with
      | .error e => some e
      | .ok weightsMember =>
        match next_fn.type_signature.result.getattrE "result" with
        | .error e => some e
        | .ok resultField =>
          match resultField.memberE with
          | .error e => some e
          | .ok resultMember =>
            if ¬ weightsMember.is_assignable_from resultMember then
              some (.finalizerResultTypeError weightsMember resultMember)
            else none
    | _ => none

/-- Spec check 9: the measurements attribute of the next_fn result must be
placed at SERVER (lines 134-137). -/
def check9Err (_initialize_fn next_fn : Computation) : Option PyErr :=
  match next_fn.type_signature.result.getattrE "measurements" with
  | .error e => some e
  | .ok measurementsField =>
    match measurementsField.placementE with
    | .error e => some e
    | .ok measurementsPlacement =>
      if measurementsPlacement ≠ .server then
        some (.templatePlacementMeasurementsError measurementsField)
      else none

/-- The first error among an ordered list of check outcomes. -/
def firstSome : List (Option PyErr) → Option PyErr
  | [] => none
  | some e :: _ => some e
  | none :: rest => firstSome rest

/-- The nine checks of the validation sequence, in the fixed listed order,
applied to the two signatures. -/
def runChecks (initialize_fn next_fn : Computation) : Option PyErr :=
  firstSome
    [check1Err initialize_fn next_fn, check2Err initialize_fn next_fn,
     check3Err initialize_fn next_fn, check4Err initialize_fn next_fn,
     check5Err initialize_fn next_fn, check6Err initialize_fn next_fn,
     check7Err initialize_fn next_fn, check8Err initialize_fn next_fn,
     check9Err initialize_fn next_fn]

/-- The outcome the ordered validation sequence prescribes: the error of the
earliest violated check, or the process object wrapping the two inputs when
every check passes. -/
def specOutcome (initialize_fn next_fn : Computation) :
    Except PyErr FinalizerProcess :=
  match runChecks initialize_fn next_fn with
  | some e => .error e
  | none => .ok ⟨initialize_fn, next_fn⟩

/-! Further concrete fixtures used by individual claims. -/

/-- A next_fn whose second parameter leaf is a bare, non-federated tensor. -/
def nextNonFedLeaf : Computation :=
  mkNext (some (mkParam3 stateT (.tensor .int32 []) updateT))
    (mkResultT stateT (.federated weightsMemberOk .server) measurementsT)

/-- A non-federated state type, a bare int32 tensor. -/
def bareStateT : TffType := .tensor .int32 []

/-- A next_fn whose consumed state is a bare float32 tensor, mismatching
bareStateT. -/
def nextStateMismatch : Computation :=
  mkNext (some (mkParam3 (.tensor .float32 []) (.federated weightsMemberOk .server) updateT))
    (mkResultT (.tensor .float32 []) (.federated weightsMemberOk .server) measurementsT)

/-- A next_fn consuming the bare int32 state, otherwise shaped like
nextOk. -/
def nextBareState : Computation :=
  mkNext (some (mkParam3 bareStateT (.federated weightsMemberOk .server) updateT))
    (mkResultT bareStateT (.federated weightsMemberOk .server) measurementsT)

/-- A ModelWeights member whose trainable dimension is unspecified, so it
accepts any concrete trainable dimension. -/
def weightsMemberLoose : TffType :=
  .structWithPython .modelWeights
    [(some "trainable", .tensor .float32 [none]),
     (some "non_trainable", .tensor .float32 [])]

/-- A ModelWeights member whose trainable dimension is the concrete 3. -/
def resultMemberStrict : TffType :=
  .structWithPython .modelWeights
    [(some "trainable", .tensor .float32 [some 3]),
     (some "non_trainable", .tensor .float32 [])]

/-- A next_fn declaring the loose weights type as second input and producing
the strictly dimensioned result. -/
def nextLooseWeights : Computation :=
  mkNext (some (mkParam3 stateT (.federated weightsMemberLoose .server) updateT))
    (mkResultT stateT (.federated resultMemberStrict .server) measurementsT)

/-- A next_fn like nextOk whose second parameter element is placed at
CLIENTS. -/
def nextClientWeights : Computation :=
  mkNext (some (mkParam3 stateT (.federated weightsMemberOk .clients) updateT))
    (mkResultT stateT (.federated weightsMemberOk .server) measurementsT)

/-- A next_fn with only two input arguments, consuming the bare int32
state. -/
def nextArityTwo : Computation :=
  mkNext (some (.struct [(none, bareStateT), (none, .federated weightsMemberOk .server)]))
    (mkResultT bareStateT (.federated weightsMemberOk .server) measurementsT)

/-! Helper lemmas. -/

mutual

theorem TffType.beq_refl : ∀ (a : TffType), TffType.beq a a = true
  | .tensor d ds => by simp [TffType.beq]
  | .struct es => by simpa [TffType.beq] using elemsBeq_refl es
  | .structWithPython c es => by simp [TffType.beq, elemsBeq_refl es]
  | .federated m p => by simp [TffType.beq, TffType.beq_refl m]

theorem elemsBeq_refl : ∀ (es : List (Option String × TffType)), elemsBeq es es = true
  | [] => by simp [elemsBeq]
  | (n, t) :: r => by simp [elemsBeq, TffType.beq_refl t, elemsBeq_refl r]

end

theorem flattenT_of_federated (t : TffType) (h : t.is_federated = true) :
    t.flattenT = [t] := by
  cases t <;> simp_all [TffType.is_federated, TffType.flattenT]

theorem flattenElems_all_federated (es : List (Option String × TffType))
    (h : ∀ e ∈ es, e.2.is_federated = true) :
    (flattenElems es).all TffType.is_federated = true := by
  induction es with
  | nil => simp [flattenElems]
  | cons e rest ih =>
    have he : e.2.is_federated = true := h e (by simp)
    simp [flattenElems, flattenT_of_federated e.2 he, he,
      ih (fun x hx => h x (by simp [hx]))]

theorem getattrE_mkResultT_result (s r m : TffType) :
    (TffType.struct [(some "state", s), (some "result", r),
      (some "measurements", m)]).getattrE "result" = .ok r := by
  simp [TffType.getattrE, List.find?]

theorem getattrE_mkResultT_measurements (s r m : TffType) :
    (TffType.struct [(some "state", s), (some "result", r),
      (some "measurements", m)]).getattrE "measurements" = .ok m := by
  simp [TffType.getattrE, List.find?]

/-! The claims. -/

/-- C2: the claim states that a next_fn with a non-federated leaf type in
its flattened parameter and result types makes construction fail with
TemplateNotFederatedError listing the offending leaf types.  The code
evaluated at such a next_fn instead raises the plain TypeError coming from
str.join at line 76, because the list being joined holds Type objects and
not strings (contrast line 97, which converts with str); the intended
TemplateNotFederatedError of lines 77-81 is never reached. -/
theorem C2_next_not_federated_join_bug :
    FinalizerProcess.init initOk nextNonFedLeaf = .error .typeErrorStrJoinNonStr ∧
    PyErr.typeErrorStrJoinNonStr.isTemplateNotFederatedError = false :=
  ⟨rfl, rfl⟩

/-- C3 counterexample: an initialize_fn returning the non-federated bare
int32 tensor, paired with a next_fn whose consumed state type is a bare
float32 tensor.  The base-class constructor invoked at line 63 checks state
consistency before any finalizer check runs, so construction fails with the
state-assignability error and not with TemplateNotFederatedError; the
federated check on the initializer is therefore not the first check
performed. -/
theorem C3_counterexample :
    FinalizerProcess.init (mkInit bareStateT) nextStateMismatch
      = .error .templateStateNotAssignableError ∧
    PyErr.templateStateNotAssignableError.isTemplateNotFederatedError = false :=
  ⟨rfl, rfl⟩

/-- C3 as amended: for every initialize_fn whose result type is not
federated, provided the base-class constructor succeeds, construction fails
with TemplateNotFederatedError; the check is the first one in the
FinalizerProcess validation itself, so no other property of the two inputs
changes the outcome. -/
theorem C3_initialize_not_federated (i n : Computation)
    (hbase : measuredProcessInit i n = .ok ⟨i, n⟩)
    (hfed : (initResult i).is_federated = false) :
    FinalizerProcess.init i n = .error (.templateNotFederatedInitError (initResult i)) := by
  unfold FinalizerProcess.init
  rw [hbase]
  simp [hfed]

/-- C3 witness: the amended theorem applied at a concrete non-federated
initializer with a base-passing next_fn. -/
theorem C3_initialize_not_federated_witness :
    FinalizerProcess.init (mkInit bareStateT) nextBareState
      = .error (.templateNotFederatedInitError bareStateT) :=
  C3_initialize_not_federated (mkInit bareStateT) nextBareState rfl rfl

/-- C1 counterexample: a pair on which the claim, read as stated, predicts a
FinalizerResultTypeError but construction succeeds.  The result attribute
member (trainable dimension 3) is not assignable from the second input
argument member (trainable dimension unspecified), which is the direction
the claim requires; the code at line 124 tests the opposite direction,
second argument member assignable from result member, which holds here, so
no error is raised. -/
theorem C1_counterexample :
    resultMemberStrict.is_assignable_from weightsMemberLoose = false ∧
    weightsMemberLoose.is_assignable_from resultMemberStrict = true ∧
    FinalizerProcess.init initOk nextLooseWeights = .ok ⟨initOk, nextLooseWeights⟩ :=
  ⟨rfl, rfl, rfl⟩

/-- C1 as amended: in the constructor, after all earlier checks pass, the
second input argument underlying member value type must be assignable from
the result attribute underlying member value type (the declared weights type
can accept the produced result); if that assignability does not hold,
construction fails with FinalizerResultTypeError carrying both the second
input argument member type and the result attribute member type.  The family
quantified over here passes the base-class checks and checks 1 to 7 by
construction. -/
theorem C1_result_type_mismatch (S U RM M : TffType)
    (wes : List (Option String × TffType)) (n0 n1 n2 : Option String)
    (hassign : (TffType.structWithPython .modelWeights wes).is_assignable_from RM = false) :
    FinalizerProcess.init (mkInit (.federated S .server))
      (mkNext (some (.struct [(n0, .federated S .server),
          (n1, .federated (.structWithPython .modelWeights wes) .server),
          (n2, .federated U .server)]))
        (mkResultT (.federated S .server) (.federated RM .server) (.federated M .server)))
      = .error (.finalizerResultTypeError (.structWithPython .modelWeights wes) RM) := by
  simp [FinalizerProcess.init, measuredProcessInit, mkInit, mkNext, mkResultT,
    initResult, nextLeafTypes, TffType.flattenT, flattenElems, TffType.is_federated,
    TffType.is_struct, TffType.structElems, TffType.placementE, TffType.memberE,
    TffType.is_struct_with_python, TffType.pythonContainerE,
    getattrE_mkResultT_result, TffType.beq_refl, hassign]

/-- C1 witness: the amended theorem applied at a weights member demanding
trainable dimension 3 while the produced result leaves it unspecified, so the
weights type cannot accept the result. -/
theorem C1_result_type_mismatch_witness :
    FinalizerProcess.init (mkInit (.federated (.tensor .int32 []) .server))
      (mkNext (some (.struct [(none, .federated (.tensor .int32 []) .server),
          (none, .federated resultMemberStrict .server),
          (none, .federated (.tensor .float32 [some 2]) .server)]))
        (mkResultT (.federated (.tensor .int32 []) .server)
          (.federated weightsMemberLoose .server)
          (.federated (.tensor .int32 []) .server)))
      = .error (.finalizerResultTypeError resultMemberStrict weightsMemberLoose) :=
  C1_result_type_mismatch (.tensor .int32 []) (.tensor .float32 [some 2])
    weightsMemberLoose (.tensor .int32 [])
    [(some "trainable", .tensor .float32 [some 3]),
     (some "non_trainable", .tensor .float32 [])]
    none none none rfl

/-- C4: for every next_fn whose parameter type is not a three-element
ordered structure, once the earlier checks pass, construction fails with
TemplateNextFnNumArgsError; the non-struct case and the wrong-arity case are
raised separately, the former embedding the offending parameter type and the
latter the list of parameter types. -/
theorem C4_next_fn_num_args :
    (∀ (S RM M : TffType),
      FinalizerProcess.init (mkInit (.federated S .server))
        (mkNext (some (.federated S .server))
          (mkResultT (.federated S .server) (.federated RM .server) (.federated M .server)))
        = .error (.templateNextFnNumArgsStructError (.federated S .server))) ∧
    (∀ (S RM M : TffType) (es : List (Option String × TffType)),
      es.length ≠ 3 →
      (es.map Prod.snd).head? = some (.federated S .server) →
      (∀ e ∈ es, e.2.is_federated = true) →
      FinalizerProcess.init (mkInit (.federated S .server))
        (mkNext (some (.struct es))
          (mkResultT (.federated S .server) (.federated RM .server) (.federated M .server)))
        = .error (.templateNextFnNumArgsArityError es.length (es.map Prod.snd))) := by
  constructor
  · intro S RM M
    simp [FinalizerProcess.init, measuredProcessInit, mkInit, mkNext, mkResultT,
      initResult, nextLeafTypes, TffType.flattenT, flattenElems, TffType.is_federated,
      TffType.is_struct, TffType.structElems, TffType.placementE, TffType.beq_refl]
  · intro S RM M es hlen hhead hfeds
    simp [FinalizerProcess.init, measuredProcessInit, mkInit, mkNext, mkResultT,
      initResult, nextLeafTypes, TffType.flattenT, flattenElems, TffType.is_federated,
      TffType.is_struct, TffType.structElems, TffType.placementE, TffType.beq_refl,
      hlen, hhead, flattenElems_all_federated es hfeds]

/-- C4 witness: the theorem applied at a non-struct parameter and at a
two-element parameter struct. -/
theorem C4_next_fn_num_args_witness :
    FinalizerProcess.init initOk
      (mkNext (some stateT) (mkResultT stateT (.federated weightsMemberOk .server) measurementsT))
      = .error (.templateNextFnNumArgsStructError stateT) ∧
    FinalizerProcess.init initOk
      (mkNext (some (.struct [(none, stateT), (none, .federated weightsMemberOk .server)]))
        (mkResultT stateT (.federated weightsMemberOk .server) measurementsT))
      = .error (.templateNextFnNumArgsArityError 2 [stateT, .federated weightsMemberOk .server]) :=
  ⟨C4_next_fn_num_args.1 (.tensor .int32 []) weightsMemberOk (.tensor .int32 []),
   C4_next_fn_num_args.2 (.tensor .int32 []) weightsMemberOk (.tensor .int32 [])
     [(none, stateT), (none, .federated weightsMemberOk .server)]
     (by decide) rfl (by decide)⟩

/-- C5: for every initialize_fn whose result type is federated but placed
somewhere other than SERVER, once the base constructor and the federated
checks pass, construction fails with TemplatePlacementError embedding the
initializer result type. -/
theorem C5_initializer_placement (S W U RM M : TffType) (pl : Placement)
    (hpl : pl ≠ .server) :
    FinalizerProcess.init (mkInit (.federated S pl))
      (mkNext (some (mkParam3 (.federated S pl) (.federated W .server) (.federated U .server)))
        (mkResultT (.federated S pl) (.federated RM .server) (.federated M .server)))
      = .error (.templatePlacementStateError (.federated S pl)) := by
  simp [FinalizerProcess.init, measuredProcessInit, mkInit, mkNext, mkParam3, mkResultT,
    initResult, nextLeafTypes, TffType.flattenT, flattenElems, TffType.is_federated,
    TffType.is_struct, TffType.structElems, TffType.placementE, TffType.beq_refl, hpl]

/-- C5 witness: the theorem applied at a CLIENTS-placed initializer
result. -/
theorem C5_initializer_placement_witness :
    FinalizerProcess.init (mkInit (.federated (.tensor .int32 []) .clients))
      (mkNext (some (mkParam3 (.federated (.tensor .int32 []) .clients)
          (.federated weightsMemberOk .server) updateT))
        (mkResultT (.federated (.tensor .int32 []) .clients)
          (.federated weightsMemberOk .server) measurementsT))
      = .error (.templatePlacementStateError (.federated (.tensor .int32 []) .clients)) :=
  C5_initializer_placement (.tensor .int32 []) weightsMemberOk (.tensor .float32 [some 2])
    weightsMemberOk (.tensor .int32 []) .clients (by decide)

/-- C6 counterexample: the claim asserts that a second parameter element
failing the requirement through its placement (SERVER replaced by CLIENTS,
member still carrying the ModelWeights container) yields the container-type
error; the code instead raises TemplatePlacementError at lines 107-109. -/
theorem C6_counterexample :
    FinalizerProcess.init initOk nextClientWeights
      = .error (.templatePlacementSecondArgError (.federated weightsMemberOk .clients)) ∧
    (PyErr.templatePlacementSecondArgError
      (.federated weightsMemberOk .clients)).isModelWeightsTypeError = false :=
  ⟨rfl, rfl⟩

/-- C6 as amended: for every next_fn whose second parameter element is
placed at SERVER but whose member is not a structurally-typed container
tagged with the ModelWeights container, once the earlier checks pass,
construction fails with ModelWeightsTypeError; a second parameter element
violating the server-placement part instead yields TemplatePlacementError. -/
theorem C6_model_weights_container (S W U RM M : TffType)
    (hW : W.is_struct_with_python = false ∨
      ∃ c wes, W = .structWithPython c wes ∧ c ≠ .modelWeights) :
    FinalizerProcess.init (mkInit (.federated S .server))
      (mkNext (some (mkParam3 (.federated S .server) (.federated W .server) (.federated U .server)))
        (mkResultT (.federated S .server) (.federated RM .server) (.federated M .server)))
      = .error (.modelWeightsTypeError (.federated W .server)) := by
  rcases hW with h | ⟨c, wes, rfl, hc⟩
  · simp [FinalizerProcess.init, measuredProcessInit, mkInit, mkNext, mkParam3, mkResultT,
      initResult, nextLeafTypes, TffType.flattenT, flattenElems, TffType.is_federated,
      TffType.is_struct, TffType.structElems, TffType.placementE, TffType.memberE,
      TffType.beq_refl, h]
  · simp [FinalizerProcess.init, measuredProcessInit, mkInit, mkNext, mkParam3, mkResultT,
      initResult, nextLeafTypes, TffType.flattenT, flattenElems, TffType.is_federated,
      TffType.is_struct, TffType.structElems, TffType.placementE, TffType.memberE,
      TffType.is_struct_with_python, TffType.pythonContainerE, TffType.beq_refl, hc]

/-- C6 witness: the amended theorem applied at a second parameter member
that is a plain struct without any Python container. -/
theorem C6_model_weights_container_witness :
    FinalizerProcess.init (mkInit (.federated (.tensor .int32 []) .server))
      (mkNext (some (mkParam3 (.federated (.tensor .int32 []) .server)
          (.federated (.struct [(some "trainable", .tensor .float32 [some 2])]) .server)
          updateT))
        (mkResultT (.federated (.tensor .int32 []) .server)
          (.federated weightsMemberOk .server) measurementsT))
      = .error (.modelWeightsTypeError
          (.federated (.struct [(some "trainable", .tensor .float32 [some 2])]) .server)) :=
  C6_model_weights_container (.tensor .int32 [])
    (.struct [(some "trainable", .tensor .float32 [some 2])])
    (.tensor .float32 [some 2]) weightsMemberOk (.tensor .int32 [])
    (Or.inl rfl)

/-- C7: for an otherwise-valid pair, the same inputs construct successfully
when the third parameter element is placed at SERVER, and changing only that
placement to CLIENTS makes construction fail with TemplatePlacementError
referencing the third input argument and embedding its type. -/
theorem C7_third_arg_placement (S U RM M : TffType)
    (wes : List (Option String × TffType))
    (hassign : (TffType.structWithPython .modelWeights wes).is_assignable_from RM = true) :
    FinalizerProcess.init (mkInit (.federated S .server))
      (mkNext (some (mkParam3 (.federated S .server)
          (.federated (.structWithPython .modelWeights wes) .server)
          (.federated U .server)))
        (mkResultT (.federated S .server) (.federated RM .server) (.federated M .server)))
      = .ok ⟨mkInit (.federated S .server),
          mkNext (some (mkParam3 (.federated S .server)
            (.federated (.structWithPython .modelWeights wes) .server)
            (.federated U .server)))
          (mkResultT (.federated S .server) (.federated RM .server) (.federated M .server))⟩ ∧
    FinalizerProcess.init (mkInit (.federated S .server))
      (mkNext (some (mkParam3 (.federated S .server)
          (.federated (.structWithPython .modelWeights wes) .server)
          (.federated U .clients)))
        (mkResultT (.federated S .server) (.federated RM .server) (.federated M .server)))
      = .error (.templatePlacementThirdArgError (.federated U .clients)) := by
  constructor <;>
    simp [FinalizerProcess.init, measuredProcessInit, mkInit, mkNext, mkParam3, mkResultT,
      initResult, nextLeafTypes, TffType.flattenT, flattenElems, TffType.is_federated,
      TffType.is_struct, TffType.structElems, TffType.placementE, TffType.memberE,
      TffType.is_struct_with_python, TffType.pythonContainerE,
      getattrE_mkResultT_result, getattrE_mkResultT_measurements,
      TffType.beq_refl, hassign]

/-- C7 witness: the theorem applied at the concrete valid fixture types. -/
theorem C7_third_arg_placement_witness :
    FinalizerProcess.init (mkInit (.federated (.tensor .int32 []) .server))
      (mkNext (some (mkParam3 (.federated (.tensor .int32 []) .server)
          (.federated weightsMemberOk .server)
          (.federated (.tensor .float32 [some 2]) .clients)))
        (mkResultT (.federated (.tensor .int32 []) .server)
          (.federated weightsMemberOk .server) (.federated (.tensor .int32 []) .server)))
      = .error (.templatePlacementThirdArgError
          (.federated (.tensor .float32 [some 2]) .clients)) :=
  (C7_third_arg_placement (.tensor .int32 []) (.tensor .float32 [some 2])
    weightsMemberOk (.tensor .int32 [])
    [(some "trainable", .tensor .float32 [some 2]),
     (some "non_trainable", .tensor .float32 [])] rfl).2

/-- C8: for every pair satisfying the full contract, construction succeeds
and the constructed object holds exactly the two input computations as its
initializer and step callables, unchanged.  The storage is the one the
spec attributes to the base class, which this class does not override. -/
theorem C8_valid_construction (S U RM M : TffType)
    (wes : List (Option String × TffType))
    (hassign : (TffType.structWithPython .modelWeights wes).is_assignable_from RM = true) :
    FinalizerProcess.init (mkInit (.federated S .server))
      (mkNext (some (mkParam3 (.federated S .server)
          (.federated (.structWithPython .modelWeights wes) .server)
          (.federated U .server)))
        (mkResultT (.federated S .server) (.federated RM .server) (.federated M .server)))
      = .ok ⟨mkInit (.federated S .server),
          mkNext (some (mkParam3 (.federated S .server)
            (.federated (.structWithPython .modelWeights wes) .server)
            (.federated U .server)))
          (mkResultT (.federated S .server) (.federated RM .server) (.federated M .server))⟩ := by
  simp [FinalizerProcess.init, measuredProcessInit, mkInit, mkNext, mkParam3, mkResultT,
    initResult, nextLeafTypes, TffType.flattenT, flattenElems, TffType.is_federated,
    TffType.is_struct, TffType.structElems, TffType.placementE, TffType.memberE,
    TffType.is_struct_with_python, TffType.pythonContainerE,
    getattrE_mkResultT_result, getattrE_mkResultT_measurements,
    TffType.beq_refl, hassign]

/-- C8 witness: the theorem applied at the concrete valid fixture types. -/
theorem C8_valid_construction_witness :
    FinalizerProcess.init (mkInit (.federated (.tensor .int32 []) .server))
      (mkNext (some (mkParam3 (.federated (.tensor .int32 []) .server)
          (.federated weightsMemberOk .server) (.federated (.tensor .float32 [some 2]) .server)))
        (mkResultT (.federated (.tensor .int32 []) .server)
          (.federated weightsMemberOk .server) (.federated (.tensor .int32 []) .server)))
      = .ok ⟨mkInit (.federated (.tensor .int32 []) .server),
          mkNext (some (mkParam3 (.federated (.tensor .int32 []) .server)
            (.federated weightsMemberOk .server) (.federated (.tensor .float32 [some 2]) .server)))
          (mkResultT (.federated (.tensor .int32 []) .server)
            (.federated weightsMemberOk .server) (.federated (.tensor .int32 []) .server))⟩ :=
  C8_valid_construction (.tensor .int32 []) (.tensor .float32 [some 2])
    weightsMemberOk (.tensor .int32 [])
    [(some "trainable", .tensor .float32 [some 2]),
     (some "non_trainable", .tensor .float32 [])] rfl

/-- C10: the container check is an identity test on the Python container
class: with everything else unchanged, a member tagged with the ModelWeights
class itself passes, while a member tagged with any other class object, a
strict subclass of ModelWeights included, fails with ModelWeightsTypeError
even when the element structure is identical. -/
theorem C10_container_identity (S U RM M : TffType)
    (wes : List (Option String × TffType)) (c : PyContainer)
    (hc : c ≠ .modelWeights)
    (hassign : (TffType.structWithPython .modelWeights wes).is_assignable_from RM = true) :
    FinalizerProcess.init (mkInit (.federated S .server))
      (mkNext (some (mkParam3 (.federated S .server)
          (.federated (.structWithPython .modelWeights wes) .server)
          (.federated U .server)))
        (mkResultT (.federated S .server) (.federated RM .server) (.federated M .server)))
      = .ok ⟨mkInit (.federated S .server),
          mkNext (some (mkParam3 (.federated S .server)
            (.federated (.structWithPython .modelWeights wes) .server)
            (.federated U .server)))
          (mkResultT (.federated S .server) (.federated RM .server) (.federated M .server))⟩ ∧
    FinalizerProcess.init (mkInit (.federated S .server))
      (mkNext (some (mkParam3 (.federated S .server)
          (.federated (.structWithPython c wes) .server)
          (.federated U .server)))
        (mkResultT (.federated S .server) (.federated RM .server) (.federated M .server)))
      = .error (.modelWeightsTypeError (.federated (.structWithPython c wes) .server)) := by
  constructor <;>
    simp [FinalizerProcess.init, measuredProcessInit, mkInit, mkNext, mkParam3, mkResultT,
      initResult, nextLeafTypes, TffType.flattenT, flattenElems, TffType.is_federated,
      TffType.is_struct, TffType.structElems, TffType.placementE, TffType.memberE,
      TffType.is_struct_with_python, TffType.pythonContainerE,
      getattrE_mkResultT_result, getattrE_mkResultT_measurements,
      TffType.beq_refl, hassign, hc]

/-- C10 witness: the theorem applied with the strict subclass of
ModelWeights as the container, the element structure being identical to the
accepted one. -/
theorem C10_container_identity_witness :
    FinalizerProcess.init (mkInit (.federated (.tensor .int32 []) .server))
      (mkNext (some (mkParam3 (.federated (.tensor .int32 []) .server)
          (.federated (.structWithPython .modelWeightsSubclass
            [(some "trainable", .tensor .float32 [some 2]),
             (some "non_trainable", .tensor .float32 [])]) .server)
          (.federated (.tensor .float32 [some 2]) .server)))
        (mkResultT (.federated (.tensor .int32 []) .server)
          (.federated weightsMemberOk .server) (.federated (.tensor .int32 []) .server)))
      = .error (.modelWeightsTypeError
          (.federated (.structWithPython .modelWeightsSubclass
            [(some "trainable", .tensor .float32 [some 2]),
             (some "non_trainable", .tensor .float32 [])]) .server)) :=
  (C10_container_identity (.tensor .int32 []) (.tensor .float32 [some 2])
    weightsMemberOk (.tensor .int32 [])
    [(some "trainable", .tensor .float32 [some 2]),
     (some "non_trainable", .tensor .float32 [])]
    .modelWeightsSubclass (by decide) rfl).2

/-- C9: once the base-class constructor of line 63 succeeds, the constructor
behaves exactly as the ordered list of the nine validation checks: the error
raised is the one produced at the site of the earliest violated check, and
when no check is violated construction succeeds.  In particular, as in the
example of the claim, a non-federated initializer result together with a
wrong-arity next_fn raises the not-federated error of check 1, not the
argument-count error of check 4. -/
theorem C9_check_ordering :
    (∀ (i n : Computation), measuredProcessInit i n = .ok ⟨i, n⟩ →
      FinalizerProcess.init i n = specOutcome i n) ∧
    FinalizerProcess.init (mkInit bareStateT) nextArityTwo
      = .error (.templateNotFederatedInitError bareStateT) ∧
    (PyErr.templateNotFederatedInitError bareStateT).isTemplateNextFnNumArgsError = false := by
  refine ⟨?_, rfl, rfl⟩
  intro i n hbase
  unfold FinalizerProcess.init specOutcome runChecks
  rw [hbase]
  cases h1 : (initResult i).is_federated
  · simp [check1Err, firstSome, h1]
  cases h2 : (nextLeafTypes n).all TffType.is_federated
  · cases hj : strJoin joinSep
        (((nextLeafTypes n).filter (fun t => !t.is_federated)).map PyObj.type) <;>
      simp [check1Err, check2Err, firstSome, h1, h2, hj]
  cases h3 : (initResult i).placementE
  · simp [check1Err, check2Err, check3Err, firstSome, h1, h2, h3]
  rename_i initPlacement
  cases initPlacement
  rotate_left
  · simp [check1Err, check2Err, check3Err, firstSome, h1, h2, h3]
  cases hpar : n.type_signature.parameter
  · simp [check1Err, check2Err, check3Err, check4Err, firstSome, h1, h2, h3, hpar]
  rename_i p
  cases h4a : p.is_struct
  · simp [check1Err, check2Err, check3Err, check4Err, firstSome, h1, h2, h3, hpar, h4a]
  by_cases h4b : p.structElems.length = 3
  rotate_left
  · simp [check1Err, check2Err, check3Err, check4Err, firstSome, h1, h2, h3, hpar, h4a, h4b]
  obtain ⟨a, b, c, helems⟩ := List.length_eq_three.mp h4b
  obtain ⟨a1, a2⟩ := a
  obtain ⟨b1, b2⟩ := b
  obtain ⟨c1, c2⟩ := c
  cases h5p : b2.placementE
  · simp [check1Err, check2Err, check3Err, check4Err, check5Err, firstSome,
      h1, h2, h3, hpar, h4a, h4b, helems, h5p]
  rename_i secondPlacement
  cases secondPlacement
  rotate_left
  · simp [check1Err, check2Err, check3Err, check4Err, check5Err, firstSome,
      h1, h2, h3, hpar, h4a, h4b, helems, h5p]
  cases h5m : b2.memberE
  · simp [check1Err, check2Err, check3Err, check4Err, check5Err, firstSome,
      h1, h2, h3, hpar, h4a, h4b, helems, h5p, h5m]
  rename_i weightsMember
  cases h5w : weightsMember.is_struct_with_python
  · simp [check1Err, check2Err, check3Err, check4Err, check5Err, firstSome,
      h1, h2, h3, hpar, h4a, h4b, helems, h5p, h5m, h5w]
  cases h5c : weightsMember.pythonContainerE
  · simp [check1Err, check2Err, check3Err, check4Err, check5Err, firstSome,
      h1, h2, h3, hpar, h4a, h4b, helems, h5p, h5m, h5w, h5c]
  rename_i container
  by_cases h5eq : container = PyContainer.modelWeights
  rotate_left
  · simp [check1Err, check2Err, check3Err, check4Err, check5Err, firstSome,
      h1, h2, h3, hpar, h4a, h4b, helems, h5p, h5m, h5w, h5c, h5eq]
  cases h6p : c2.placementE
  · simp [check1Err, check2Err, check3Err, check4Err, check5Err, check6Err, firstSome,
      h1, h2, h3, hpar, h4a, h4b, helems, h5p, h5m, h5w, h5c, h5eq, h6p]
  rename_i thirdPlacement
  cases thirdPlacement
  rotate_left
  · simp [check1Err, check2Err, check3Err, check4Err, check5Err, check6Err, firstSome,
      h1, h2, h3, hpar, h4a, h4b, helems, h5p, h5m, h5w, h5c, h5eq, h6p]
  cases h7 : n.type_signature.result.getattrE "result"
  · simp [check1Err, check2Err, check3Err, check4Err, check5Err, check6Err, check7Err,
      firstSome, h1, h2, h3, hpar, h4a, h4b, helems, h5p, h5m, h5w, h5c, h5eq, h6p, h7]
  rename_i resultField
  cases h7p : resultField.placementE
  · simp [check1Err, check2Err, check3Err, check4Err, check5Err, check6Err, check7Err,
      firstSome, h1, h2, h3, hpar, h4a, h4b, helems, h5p, h5m, h5w, h5c, h5eq, h6p, h7, h7p]
  rename_i resultPlacement
  cases resultPlacement
  rotate_left
  · simp [check1Err, check2Err, check3Err, check4Err, check5Err, check6Err, check7Err,
      firstSome, h1, h2, h3, hpar, h4a, h4b, helems, h5p, h5m, h5w, h5c, h5eq, h6p, h7, h7p]
  cases h8m : resultField.memberE
  · simp [check1Err, check2Err, check3Err, check4Err, check5Err, check6Err, check7Err,
      check8Err, firstSome, h1, h2, h3, hpar, h4a, h4b, helems, h5p, h5m, h5w, h5c, h5eq,
      h6p, h7, h7p, h8m]
  rename_i resultMember
  cases h8a : weightsMember.is_assignable_from resultMember
  · simp [check1Err, check2Err, check3Err, check4Err, check5Err, check6Err, check7Err,
      check8Err, firstSome, h1, h2, h3, hpar, h4a, h4b, helems, h5p, h5m, h5w, h5c, h5eq,
      h6p, h7, h7p, h8m, h8a]
  cases h9 : n.type_signature.result.getattrE "measurements"
  · simp [check1Err, check2Err, check3Err, check4Err, check5Err, check6Err, check7Err,
      check8Err, check9Err, firstSome, h1, h2, h3, hpar, h4a, h4b, helems, h5p, h5m, h5w,
      h5c, h5eq, h6p, h7, h7p, h8m, h8a, h9]
  rename_i measurementsField
  cases h9p : measurementsField.placementE
  · simp [check1Err, check2Err, check3Err, check4Err, check5Err, check6Err, check7Err,
      check8Err, check9Err, firstSome, h1, h2, h3, hpar, h4a, h4b, helems, h5p, h5m, h5w,
      h5c, h5eq, h6p, h7, h7p, h8m, h8a, h9, h9p]
  rename_i measurementsPlacement
  cases measurementsPlacement <;>
    simp [check1Err, check2Err, check3Err, check4Err, check5Err, check6Err, check7Err,
      check8Err, check9Err, firstSome, h1, h2, h3, hpar, h4a, h4b, helems, h5p, h5m, h5w,
      h5c, h5eq, h6p, h7, h7p, h8m, h8a, h9, h9p]

/-- C9 witness: the ordering theorem applied at the concrete fixture pair
whose earliest violated check is the second-argument placement check, and
the prescribed outcome evaluated there. -/
theorem C9_check_ordering_witness :
    FinalizerProcess.init initOk nextClientWeights = specOutcome initOk nextClientWeights ∧
    specOutcome initOk nextClientWeights
      = .error (.templatePlacementSecondArgError (.federated weightsMemberOk .clients)) :=
  ⟨C9_check_ordering.1 initOk nextClientWeights rfl, rfl⟩

end Finalizers
